import Mathlib

/-
Verification development for the daily-broadcast bot (src/app.py).

The Python source is shallowly embedded: the message-selection logic of the
`/broadcast` endpoint (explicit override, Google-Sheets row lookup, 15-entry
rotation), the sheet-scanning function `get_message_from_sheets`, and the
static blog-article lookup `blog_article` over `DETAILED_TEACHINGS` become
executable Lean definitions.  External effects (the HTTP fetch of the sheet,
the LINE delivery call, the current JST date) are passed in as explicit
parameters.
-/

namespace BuddhistBot

/-- Python truthiness of `data.get(k)` for an optional string value:
`None` and the empty string are falsy, every other string is truthy. -/
def pyTruthy : Option String → Bool
  | none => false
  | some s => s != ""

/-- Whether `needle` is a prefix of `hay`, on character lists. -/
def startsWithChars : List Char → List Char → Bool
  | [], _ => true
  | _ :: _, [] => false
  | a :: as, b :: bs => a == b && startsWithChars as bs

/-- Whether `needle` occurs as a contiguous sublist of `hay`. -/
def containsChars (needle : List Char) : List Char → Bool
  | [] => needle.isEmpty
  | c :: rest => startsWithChars needle (c :: rest) || containsChars needle rest

/-- Python's `needle in hay` substring test on strings. -/
def pyIn (needle hay : String) : Bool :=
  containsChars needle.toList hay.toList

/-- Whether `s` ends with `suf` (embeds checking a URL suffix). -/
def endsWithChars (s suf : String) : Bool :=
  startsWithChars suf.toList.reverse s.toList.reverse

/-- The whitespace characters stripped by Python's `str.strip()`
(ASCII whitespace; the data in this program contains no other). -/
def isPySpace (c : Char) : Bool :=
  c == ' ' || c == '\t' || c == '\n' || c == '\r' || c == '\x0b' || c == '\x0c'

/-- Python's `s.strip()`: drop leading and trailing whitespace. -/
def pyStrip (s : String) : String :=
  String.mk (((s.toList.dropWhile isPySpace).reverse.dropWhile isPySpace).reverse)

/-- A calendar date in the fixed UTC+9 locale, as produced by
`datetime.now(jst)` in the source. -/
structure JDate where
  year : Nat
  month : Nat
  day : Nat
  deriving DecidableEq, Repr

/-- Gregorian leap-year rule, as used by Python's `datetime`. -/
def isLeap (y : Nat) : Bool :=
  (y % 4 == 0 && y % 100 != 0) || y % 400 == 0

/-- Number of days in month `m` of year `y`. -/
def daysInMonth (y : Nat) : Nat → Nat
  | 1 => 31
  | 2 => if isLeap y then 29 else 28
  | 3 => 31
  | 4 => 30
  | 5 => 31
  | 6 => 30
  | 7 => 31
  | 8 => 31
  | 9 => 30
  | 10 => 31
  | 11 => 30
  | 12 => 31
  | _ => 0

/-- `today.timetuple().tm_yday`: the 1-based ordinal day of the year. -/
def dayOfYear (d : JDate) : Nat :=
  (((List.range (d.month - 1)).map (fun i => daysInMonth d.year (i + 1))).sum) + d.day

/-- Days in the proleptic Gregorian calendar strictly before year `y`. -/
def daysBeforeYear (y : Nat) : Nat :=
  365 * (y - 1) + (y - 1) / 4 - (y - 1) / 100 + (y - 1) / 400

/-- Absolute day number of a date (day 1 = Jan 1 of year 1); used to
measure how many days apart two dates are, also across a year boundary. -/
def absDay (d : JDate) : Nat :=
  daysBeforeYear d.year + dayOfYear d

/-- `strftime("%m")`-style zero-padding to two digits. -/
def pad2 (n : Nat) : String :=
  if n < 10 then "0" ++ toString n else toString n

/-- `today.strftime("%Y年%m月%d日")`. -/
def today_str (d : JDate) : String :=
  toString d.year ++ "年" ++ pad2 d.month ++ "月" ++ pad2 d.day ++ "日"

/-- `today.strftime("%m月%d日")`. -/
def month_day (d : JDate) : String :=
  pad2 d.month ++ "月" ++ pad2 d.day ++ "日"

/-- `today.strftime("%a")`: the C-locale weekday abbreviation.  Day 1 of
the proleptic Gregorian calendar (Jan 1, year 1) is a Monday. -/
def weekdayAbbrev (d : JDate) : String :=
  match absDay d % 7 with
  | 1 => "Mon"
  | 2 => "Tue"
  | 3 => "Wed"
  | 4 => "Thu"
  | 5 => "Fri"
  | 6 => "Sat"
  | _ => "Sun"

/-- Outcome of the HTTP fetch of the spreadsheet: either some exception is
raised during the request or JSON parse, or a response arrives with a
status code and the parsed `values` rows (`data.get('values', [])`). -/
inductive SheetsFetch where
  | throws
  | response (status : Nat) (values : List (List String))
  deriving DecidableEq, Repr

/-- The row-scanning loop of `get_message_from_sheets` (src/app.py lines
86-101): rows are scanned in source order; a row shorter than two cells is
skipped; a row matches when its date cell contains the full date, the
month-day, the weekday token or the recurring marker `毎週`; the first
matching row with a non-blank message cell yields that raw message cell. -/
def scanRows (tStr mDay wDay : String) : List (List String) → Option String
  | [] => none
  | row :: rest =>
    if 2 ≤ row.length then
      let date_cell := (row.get? 0).getD ""
      let message_cell := (row.get? 1).getD ""
      if pyIn tStr date_cell || pyIn mDay date_cell ||
          pyIn wDay date_cell || pyIn "毎週" date_cell then
        if pyStrip message_cell != "" then some message_cell
        else scanRows tStr mDay wDay rest
      else scanRows tStr mDay wDay rest
    else scanRows tStr mDay wDay rest

/-- `get_message_from_sheets` (src/app.py lines 55-105): `none` on missing
configuration, a raised exception, a non-200 status, or empty data;
otherwise scan the rows after the header row for today's message. -/
def get_message_from_sheets (apiKey spreadsheetId : Option String)
    (fetch : SheetsFetch) (d : JDate) : Option String :=
  if !pyTruthy apiKey || !pyTruthy spreadsheetId then none
  else
    match fetch with
    | .throws => none
    | .response status values =>
      if status != 200 then none
      else if values.isEmpty then none
      else scanRows (today_str d) (month_day d) (weekdayAbbrev d) (values.drop 1)

/-- `teaching_keys` (src/app.py lines 164-168): the article key of each
rotation entry, in rotation order. -/
def teaching_keys : List String :=
  ["chudo", "ichigo_ichie", "mujo", "inga", "jihi",
   "chisoku", "imakoko", "muga", "niniku", "fuse",
   "shoken", "kutai", "engi", "ku", "shojin"]

/-- `teachings_with_url` (src/app.py lines 171-321): the fixed 15-entry
rotation of pre-written broadcast messages, copied verbatim. -/
def teachings_with_url : List String :=
  ["おはようございます。

仏教の「中道」という教えがあります。極端に偏らない生き方です。
頑張りすぎず、怠けすぎず、ちょうど良いバランスを心がけましょう。

今日も心穏やかに過ごしましょう。

📖 詳しく読む：https://buddhist-line-bot-production.up.railway.app/blog/chudo",
   "おはようございます。

「一期一会」- 今日の出会いは一生に一度きりかもしれません。
目の前の人との時間を大切に、心を込めて接しましょう。

今日も心穏やかに過ごしましょう。

📖 詳しく読む：https://buddhist-line-bot-production.up.railway.app/blog/ichigo_ichie",
   "おはようございます。

仏教では「諸行無常」といい、すべては変化していきます。
辛いことも永遠には続きません。今を受け入れて前を向きましょう。

今日も心穏やかに過ごしましょう。

📖 詳しく読む：https://buddhist-line-bot-production.up.railway.app/blog/mujo",
   "おはようございます。

「因果応報」- 良い行いは良い結果を生みます。
小さな親切が、巡り巡って自分に返ってきます。

今日も心穏やかに過ごしましょう。

📖 詳しく読む：https://buddhist-line-bot-production.up.railway.app/blog/inga",
   "おはようございます。

仏教の「慈悲」とは、思いやりの心です。
まず自分に優しく、そして周りの人にも優しくしましょう。

今日も心穏やかに過ごしましょう。

📖 詳しく読む：https://buddhist-line-bot-production.up.railway.app/blog/jihi",
   "おはようございます。

「知足」- 今あるものに満足し感謝する心です。
足りないものより、今あるものに目を向けてみましょう。

今日も心穏やかに過ごしましょう。

📖 詳しく読む：https://buddhist-line-bot-production.up.railway.app/blog/chisoku",
   "おはようございます。

仏教では「今ここ」を大切にします。
過去や未来ではなく、今この瞬間を生きることが幸せへの道です。

今日も心穏やかに過ごしましょう。

📖 詳しく読む：https://buddhist-line-bot-production.up.railway.app/blog/imakoko",
   "おはようございます。

「無我」- 執着を手放すと心が軽くなります。
こだわりすぎず、流れに身を任せることも大切です。

今日も心穏やかに過ごしましょう。

📖 詳しく読む：https://buddhist-line-bot-production.up.railway.app/blog/muga",
   "おはようございます。

「忍辱」- 困難に耐える心の強さです。
今の苦労は、必ず成長の糧になります。

今日も心穏やかに過ごしましょう。

📖 詳しく読む：https://buddhist-line-bot-production.up.railway.app/blog/niniku",
   "おはようございます。

「布施」とは、見返りを求めない与える心です。
笑顔や優しい言葉も、立派な布施になります。

今日も心穏やかに過ごしましょう。

📖 詳しく読む：https://buddhist-line-bot-production.up.railway.app/blog/fuse",
   "おはようございます。

「正見」- 物事を正しく見る目を持ちましょう。
先入観を捨てて、ありのままを受け入れることが大切です。

今日も心穏やかに過ごしましょう。

📖 詳しく読む：https://buddhist-line-bot-production.up.railway.app/blog/shoken",
   "おはようございます。

仏教では「苦」の原因は執着だと教えます。
手放すことで、心は自由になり軽くなります。

今日も心穏やかに過ごしましょう。

📖 詳しく読む：https://buddhist-line-bot-production.up.railway.app/blog/kutai",
   "おはようございます。

「縁起」- すべては繋がり合って存在しています。
あなたの笑顔が、誰かの幸せに繋がっているかもしれません。

今日も心穏やかに過ごしましょう。

📖 詳しく読む：https://buddhist-line-bot-production.up.railway.app/blog/engi",
   "おはようございます。

「色即是空」- 固定的なものは何もありません。
柔軟な心で、変化を受け入れていきましょう。

今日も心穏やかに過ごしましょう。

📖 詳しく読む：https://buddhist-line-bot-production.up.railway.app/blog/ku",
   "おはようございます。

「精進」- 一歩ずつでも前に進むことが大切です。
小さな努力の積み重ねが、大きな成果につながります。

今日も心穏やかに過ごしましょう。

📖 詳しく読む：https://buddhist-line-bot-production.up.railway.app/blog/shojin"]

/-- The message-selection logic of `broadcast` (src/app.py lines 148-330):
a truthy override is used verbatim; otherwise the sheet lookup is tried,
and when it yields nothing the rotation entry at
`(day_of_year - 1) % len(teachings_with_url)` is used, stripped. -/
def selectMessage (body apiKey spreadsheetId : Option String)
    (fetch : SheetsFetch) (d : JDate) : String :=
  if !pyTruthy body then
    match get_message_from_sheets apiKey spreadsheetId fetch d with
    | some sheet_message => sheet_message
    | none =>
      let day_of_year := dayOfYear d
      let teaching_index := (day_of_year - 1) % teachings_with_url.length
      pyStrip (teachings_with_url.getD teaching_index "")
  else (body.getD "")

/-- The JSON body of the `/broadcast` response: `status` and `message`
fields always, `content` only on the success path. -/
structure JsonResp where
  status : String
  message : String
  content : Option String
  deriving DecidableEq, Repr

/-- The `/broadcast` endpoint (src/app.py lines 143-350): select the
message text, hand it to the Broadcaster (`deliver`), and return 200 with
a success body carrying the exact content sent, or 500 with an error body
carrying the exception description when delivery raises. -/
def broadcast (body apiKey spreadsheetId : Option String)
    (fetch : SheetsFetch) (d : JDate)
    (deliver : String → Except String Unit) : JsonResp × Nat :=
  let message_text := selectMessage body apiKey spreadsheetId fetch d
  match deliver message_text with
  | .ok _ => (⟨"success", "Buddhist wisdom broadcast sent", some message_text⟩, 200)
  | .error e => (⟨"error", e, none⟩, 500)

/-- One entry of `DETAILED_TEACHINGS` (src/app.py lines 457-698): the
static article record rendered by the blog endpoints. -/
structure Teaching where
  name : String
  pronunciation : String
  meaning : String
  quote : String
  application : String
  practices : List String
  reflection : String
  story : String
  daily_practice : String
  deriving DecidableEq, Repr

/-- `DETAILED_TEACHINGS` (src/app.py lines 457-698): the static
teaching-article table, as an insertion-ordered association list, copied
verbatim from the source. -/
def DETAILED_TEACHINGS : List (String × Teaching) :=
 [("chudo",
   { name := "中道",
     pronunciation := "ちゅうどう",
     meaning := "中道とは、極端に偏らない生き方を説く仏教の根本的な教えです。お釈迦様が修行時代に体験した、厳しすぎる苦行でも快楽にふけることでもない、バランスのとれた道を意味します。現代の私たちにとっても、頑張りすぎて燃え尽きることなく、かといって怠けすぎることもない、適度な生き方の指針となります。",
     quote := "苦しすぎず、楽すぎず、ちょうど良い道を歩もう",
     application := "ストレス社会で生きる現代人にとって、中道の教えは心のバランスを保つための羅針盤です。仕事に追われて疲れ切ってしまう時、「もう少し力を抜いても大丈夫」と自分に優しくしてあげましょう。逆に、やる気が出ない時は「少しだけでも前進しよう」と自分を励ましてあげる。このバランス感覚が、長く続けられる幸せな人生を作ります。",
     practices :=
       ["完璧を求めすぎず、80%でも良しとする心構えを持つ",
        "疲れた時は無理せず休憩を取る",
        "怠けがちな時は小さな一歩を踏み出す",
        "他人と比較せず、自分のペースを大切にする"],
     reflection := "人生は長い道のりです。短距離走のように全力疾走し続けることはできません。かといって、立ち止まったままでも前に進めません。中道の教えは、自分にとって持続可能な生き方を見つけることの大切さを教えてくれます。",
     story := "お釈迦様は王子として何不自由ない生活を送った後、厳しい苦行を6年間続けました。しかし、どちらも悟りには至らず、適度な食事を取り、無理のない修行を続けることで初めて悟りを開いたと言われています。",
     daily_practice := "今日一日、何かに取り組む時は「100%完璧でなくても大丈夫」と自分に言い聞かせてみましょう。そして疲れを感じたら、5分でも10分でも、自分を労わる時間を作ってあげてください。" }),
  ("ichigo_ichie",
   { name := "一期一会",
     pronunciation := "いちごいちえ",
     meaning := "一期一会とは、「一生に一度の出会い」という意味で、今この瞬間の出会いや体験を大切にする心構えを表す言葉です。茶道から生まれた言葉ですが、仏教的な無常観と深く結びついています。同じ瞬間は二度と訪れない、同じ人との同じ関係も二度とないということを心に刻み、今を精一杯生きることの大切さを教えてくれます。",
     quote := "今この瞬間は、二度と戻らない かけがえのない時間",
     application := "普段何気なくやり過ごしている日常の瞬間にも、実は深い意味があります。家族との食事、友人との会話、同僚との仕事。これらすべてが一期一会の出会いです。スマートフォンを見ながらの会話ではなく、相手の目を見て心を込めて接する。そうすることで、人間関係がより豊かになり、お互いにとって意味のある時間を過ごすことができます。",
     practices :=
       ["人と話す時はスマートフォンを置き、相手に集中する",
        "日常の小さな瞬間にも感謝の気持ちを持つ",
        "別れ際には「ありがとう」の言葉を忘れずに",
        "今日会う人すべてを大切な縁だと思って接する"],
     reflection := "人生は出会いと別れの連続です。毎日が一期一会の連続であり、今日という日も二度と戻ってきません。この教えを心に留めることで、何気ない日常が特別な意味を持つようになります。",
     story := "茶道の千利休は、茶会での一期一会を大切にしました。同じメンバーで同じ茶室に集まっても、季節、天気、その日の心境により、まったく同じ茶会は二度とありません。だからこそ、その時を大切にするのです。",
     daily_practice := "今日出会うすべての人に、心からの関心を向けてみましょう。コンビニの店員さん、電車で隣になった人、家族や同僚。すべてが貴重な一期一会の出会いです。" }),
  ("mujo",
   { name := "諸行無常",
     pronunciation := "しょぎょうむじょう",
     meaning := "諸行無常は仏教の根本的な教えの一つで、「すべてのものは変化し続け、永遠に同じ状態を保つものは何もない」という真理を表します。この世のすべて（諸行）は常に変化し（無常）、固定化されたものは存在しないということです。これは決して悲観的な教えではなく、変化があるからこそ成長や改善の可能性があり、苦しい状況も必ず変化するという希望の教えでもあります。",
     quote := "変化こそが この世の唯一の不変の真理",
     application := "仕事で失敗した時、人間関係でつまずいた時、健康を損なった時。そんな辛い状況にある時こそ、無常の教えが心の支えになります。「この状況も永遠に続くわけではない」「必ず変化の時が来る」と思うことで、絶望に打ちひしがれることなく、前向きに生きる力が湧いてきます。また、順調な時にも慢心せず、謙虚な気持ちを保つことができます。",
     practices :=
       ["辛い時は「これも変化する」と自分に言い聞かせる",
        "良い時も「この状況に感謝しつつ、永続しないことを忘れずに」と心に留める",
        "季節の移ろいを意識的に観察し、変化の美しさを感じる",
        "過去の辛い経験が今は良い思い出になっていることを思い出す"],
     reflection := "変化を恐れるのではなく、変化の中にこそ人生の豊かさがあることを理解しましょう。春夏秋冬があるからこそ自然は美しく、喜怒哀楽があるからこそ人生は深みを持ちます。",
     story := "お釈迦様は、ある母親が亡くなった子どもを抱いて泣いている姿を見て、「この世で死なない人がいる家から、芥子の種をもらってきなさい」と言いました。しかし、そのような家は存在しません。すべての家庭に死があり、無常があることを、母親は理解したのです。",
     daily_practice := "今日感じる感情や起こる出来事に対して、「これも変化するもの」という視点を持ってみましょう。怒りや悲しみも、喜びや楽しさも、すべて流れゆくものです。" }),
  ("inga",
   { name := "因果応報",
     pronunciation := "いんがおうほう",
     meaning := "因果応報とは、良い行いには良い結果が、悪い行いには悪い結果が必ず返ってくるという仏教の根本的な教えです。「因」は原因、「果」は結果を意味し、すべての行為には必ず結果が伴うということです。これは決して恐怖を与える教えではなく、日々の小さな善行を積み重ねることで、自分や周りの人々の人生をより良いものにできるという希望の教えでもあります。",
     quote := "善き種を蒔けば、善き実を収穫できる",
     application := "日常生活の中で、人に親切にする、感謝の言葉を伝える、丁寧に仕事をするといった小さな良い行いを心がけましょう。それは必ず自分に返ってきます。また、怒りや愚痴、悪口などのネガティブな行為は控えめにし、できるだけ建設的で前向きな言動を選択することが大切です。",
     practices :=
       ["毎日一つは人に親切なことをする",
        "感謝の気持ちを言葉や行動で表現する",
        "ネガティブな発言を控え、建設的な言葉を選ぶ",
        "自分の行動が他人に与える影響を意識する"],
     reflection := "因果応報は即座に現れるものばかりではありません。時には長い時間をかけて結果が現れることもあります。大切なのは、結果を期待するのではなく、純粋な気持ちで良い行いを続けることです。",
     story := "仏教の説話に、貧しい老女が仏様に一握りの砂を供養したところ、その純粋な気持ちが評価され、来世で王として生まれ変わったという話があります。行為の大小ではなく、心の在り方が重要だという教えです。",
     daily_practice := "今日は意識的に、周りの人に対して親切な言葉をかけてみましょう。笑顔で挨拶する、「ありがとう」を多く言う、誰かの話を丁寧に聞くなど、小さなことから始めてください。" }),
  ("jihi",
   { name := "慈悲",
     pronunciation := "じひ",
     meaning := "慈悲とは、「慈」は楽を与えること、「悲」は苦を取り除くことを意味し、すべての生き物に対する深い思いやりの心を表します。仏教における最も重要な徳目の一つで、相手の幸せを願い、苦しみを共に感じ、それを和らげようとする温かい心のことです。慈悲は決して上から目線の同情ではなく、平等で無条件の愛情を意味します。",
     quote := "慈悲の心は、すべての苦しみを癒す薬",
     application := "慈悲の実践は、まず自分自身に優しくすることから始まります。自分を責めたり、完璧を求めすぎたりせず、失敗や弱さも含めて自分を受け入れましょう。そして、その温かさを家族、友人、知人、さらには見知らぬ人にまで広げていきます。相手の立場に立って考え、判断するよりも理解することを優先します。",
     practices :=
       ["自分の失敗や弱さを責めず、優しく受け入れる",
        "相手の気持ちや状況を想像してから話す",
        "困っている人を見かけたら、できる範囲で手を差し伸べる",
        "怒りを感じた時は、相手の事情を考えてみる"],
     reflection := "慈悲は特別な人だけが持つものではありません。誰もが生まれながらに持っている心の宝物です。日々の小さな実践を通じて、この宝物を磨き、光らせることができます。",
     story := "観音菩薩は慈悲の象徴として親しまれています。千の手を持つ千手観音は、すべての人を救うために多くの手が必要だという慈悲の深さを表現していると言われています。",
     daily_practice := "今日は自分と他人に対して、特に優しい気持ちで接してみましょう。イライラした時は深呼吸をして、「この人も幸せになりたいと願っている」ということを思い出してください。" }),
  ("chisoku",
   { name := "知足",
     pronunciation := "ちそく",
     meaning := "知足とは、「足るを知る」という意味で、今あるものに満足し感謝する心を表します。現代社会は「もっと欲しい」「もっと持ちたい」という欲望に駆り立てられがちですが、知足の教えは、既に自分が持っているものの価値に気づき、それに感謝することの大切さを説いています。これは決して向上心を捨てることではなく、今の状況を受け入れながらも、心穏やかに成長していく智慧です。",
     quote := "足りないものを数えるより、あるものに感謝しよう",
     application := "毎日の生活の中で、当たり前だと思っていることに目を向けてみましょう。健康な体、安全な住まい、美味しい食事、家族や友人との時間。これらは決して当たり前ではなく、多くの恵みが重なって成り立っています。SNSで他人と比較して落ち込むよりも、自分の人生にある小さな幸せを数えてみることで、心が軽やかになります。",
     practices :=
       ["毎朝起きた時に、今日あることに3つ感謝する",
        "他人と比較しそうになったら、自分の良いところを思い出す",
        "物を買う前に「本当に必要か」を一度考える",
        "家族や友人の存在に改めて感謝の言葉を伝える"],
     reflection := "知足の心は、幸せを外に求めるのではなく、内側に見つける智慧です。欲望には際限がありませんが、感謝の心には無限の豊かさがあります。",
     story := "中国の老子は「足るを知る者は富む」と言いました。また、仏教の経典には「少欲知足」という言葉があり、欲を少なくして足ることを知る者こそが真の豊かさを得ると教えています。",
     daily_practice := "今日は意識的に、当たり前だと思っていることに感謝してみましょう。朝のコーヒー、家族の笑顔、安全に歩ける道。小さなことから感謝の気持ちを育てていってください。" }),
  ("imakoko",
   { name := "今ここ",
     pronunciation := "いまここ",
     meaning := "「今ここ」とは、過去の後悔や未来の不安にとらわれることなく、現在のこの瞬間に意識を向けて生きることの大切さを説く教えです。マインドフルネスの根本的な考え方でもあり、仏教では「正念」と呼ばれます。私たちの心は常に過去と未来を行き来していますが、実際に生きているのは「今」だけです。この瞬間に集中することで、心の平安と深い気づきを得ることができます。",
     quote := "過去は記憶、未来は想像、現実は今この瞬間だけ",
     application := "日常生活の中で、今していることに完全に注意を向ける練習をしてみましょう。食事をする時は味わうことに集中し、歩く時は足の感覚に意識を向け、人と話す時は相手の言葉に耳を傾ける。スマートフォンを見ながらの「ながら行動」をやめて、一つ一つの行動を丁寧に行うことで、人生の質が格段に向上します。",
     practices :=
       ["食事の時は最初の一口を味わって食べる",
        "歩く時は足の裏の感覚を意識する",
        "呼吸に意識を向けて深呼吸を3回する",
        "不安になったら「今、ここで何が起きているか」を観察する"],
     reflection := "今この瞬間こそが、私たちが本当に生きている時間です。過去を変えることはできませんし、未来はまだ来ていません。今に集中することで、人生がより豊かで意味深いものになります。",
     story := "お釈迦様は弟子たちに「今この瞬間の呼吸に意識を向けなさい」と教えました。これが仏教瞑想の基本であり、2500年前から続く「今ここ」を生きる実践法です。",
     daily_practice := "今日は何をする時も、最初の5分間は完全にその行動に集中してみましょう。スマートフォンを置いて、今この瞬間を存分に味わってください。" }),
  ("muga",
   { name := "無我",
     pronunciation := "むが",
     meaning := "無我とは、固定的で不変の「自我」は存在しないという仏教の根本的な教えです。私たちは「これが自分だ」という強いアイデンティティを持ちがちですが、実際の自分は常に変化し続けており、様々な要因によって形作られています。無我の教えは、自我への執着を手放すことで、より自由で柔軟な生き方ができることを示しています。これは自分を否定することではなく、より大きな視点から自分を見つめることです。",
     quote := "執着を手放せば、心は軽やかに空を舞う",
     application := "自分のイメージや他人からの評価に固執しすぎず、もっと自然体で生きることを心がけましょう。「こうでなければならない」という思い込みを手放し、状況に応じて柔軟に対応する。失敗しても「それも自分の一部」と受け入れ、成功しても慢心せず謙虚でいる。このような姿勢が、ストレスの少ない生き方につながります。",
     practices :=
       ["自分の意見に固執せず、他の考え方も受け入れる",
        "失敗した時は「完璧でなくても大丈夫」と自分を慰める",
        "他人からの評価を気にしすぎず、自分らしさを大切にする",
        "変化を恐れず、新しい経験を歓迎する"],
     reflection := "無我の教えは、真の自由への道を示しています。自我の檻から解放されることで、もっと広い世界を見ることができ、他者との深いつながりを感じることができます。",
     story := "ある修行僧が「自分とは何か」と悩んでいた時、師匠は川を指して言いました。「あの川は常に流れているが、同じ水は二度と流れない。それでも私たちは『川』と呼ぶ。あなたもまた、常に変化する川のようなものだ」と。",
     daily_practice := "今日は自分の固定観念を一つ手放してみましょう。「いつもこうしている」ことを少し変えてみたり、新しい視点で物事を見てみたりして、柔軟性を育ててください。" }),
  ("niniku",
   { name := "忍辱",
     pronunciation := "にんにく",
     meaning := "忍辱とは、困難や苦しみに遭遇した時に、怒りや恨みに支配されることなく、心の平静を保つ強さを意味します。「忍」は耐える、「辱」は屈辱や困難を表し、単に我慢することではなく、智慧をもって状況を受け入れ、そこから学びを得る積極的な姿勢を指します。現代のストレス社会において、この教えは心の resilience（回復力）を育てる重要な智慧となります。",
     quote := "困難は成長への扉、忍耐は その鍵",
     application := "人生で困難に直面した時、まず深呼吸をして感情を落ち着かせましょう。「この経験から何を学べるか」「どのように成長できるか」という視点を持つことで、被害者意識から抜け出すことができます。また、他人からの理不尽な扱いを受けた時も、相手の事情を想像し、怒りに支配されずに冷静に対処することで、より良い解決策を見つけることができます。",
     practices :=
       ["イライラした時は10秒数えてから反応する",
        "困難な状況を「成長のチャンス」と捉え直す",
        "他人の言動に振り回されず、自分の価値観を大切にする",
        "辛い経験をした後は、そこから得た学びを書き出してみる"],
     reflection := "忍辱は弱さではなく、内なる強さの表れです。一時的な感情に流されず、長期的な視点を持つことで、真の解決と成長を得ることができます。",
     story := "お釈迦様は前世で忍辱仙人として修行していた時、悪王に体を切り刻まれても恨みを抱かず、慈悲の心を保ち続けたという話があります。この究極の忍辱によって、悟りへの道が開かれたとされています。",
     daily_practice := "今日何かイライラすることがあったら、まず深呼吸をして「この状況から何を学べるか」を考えてみましょう。怒りではなく、智慧で対応することを心がけてください。" }),
  ("fuse",
   { name := "布施",
     pronunciation := "ふせ",
     meaning := "布施とは、見返りを求めることなく、他者に施しを与える行為です。仏教では、物質的な施し（財施）、恐怖を取り除く施し（無畏施）、智慧や教えを与える施し（法施）の三つがありますが、最も大切なのは純粋な心からの行為です。布施は相手のためだけでなく、自分の心も豊かにし、執着心を手放す修行でもあります。小さな親切や笑顔も立派な布施になります。",
     quote := "与えることで受け取り、手放すことで豊かになる",
     application := "日常生活の中で、できる範囲で他者に喜びや安らぎを与えることを心がけましょう。お金や物だけでなく、笑顔、優しい言葉、時間を割いて話を聞くこと、道を譲ることなど、小さな行為も大きな意味を持ちます。大切なのは、見返りを期待せず、純粋な気持ちで行うことです。そうすることで、自分の心も軽やかになり、周りとの関係も温かくなります。",
     practices :=
       ["毎日一つは人に親切なことをする",
        "電車で席を譲る、道を教えるなど小さな親切を心がける",
        "家族や友人の話を時間をかけて丁寧に聞く",
        "寄付やボランティアなど、できる範囲で社会貢献をする"],
     reflection := "真の豊かさは、どれだけ持っているかではなく、どれだけ与えられるかにあります。布施の心を持つことで、自分も周りも幸せになる循環が生まれます。",
     story := "貧しい老婆が仏様に一銭の施しをした時、富豪が大金を寄進した時よりも大きな功徳があったという話があります。大切なのは金額ではなく、その人なりの精一杯の心だということを教えています。",
     daily_practice := "今日は意識的に、誰かのために何かをしてみましょう。コンビニの店員さんに笑顔で挨拶する、家族のお手伝いをする、友人に励ましのメッセージを送るなど、小さなことから始めてください。" }),
  ("shoken",
   { name := "正見",
     pronunciation := "しょうけん",
     meaning := "正見とは、物事をありのままに、正しく見る智慧のことです。八正道の最初に位置する重要な教えで、私たちの認識の歪みや偏見、先入観を取り除き、真実を見抜く目を養うことを意味します。日常生活では、感情や思い込みに左右されず、客観的で冷静な判断力を身につけることです。正見を持つことで、適切な行動と正しい人生の歩み方が可能になります。",
     quote := "曇りなき心の目で、真実を見つめよう",
     application := "何かの判断をする時、まず一歩引いて状況を客観視する習慣をつけましょう。感情的になっている時ほど、「事実は何か」「自分の思い込みはないか」を確認することが大切です。また、メディアの情報や他人の意見も鵜呑みにせず、複数の角度から検証する姿勢を持ちます。人間関係でも、相手の行動の背景や事情を考慮することで、より適切な対応ができます。",
     practices :=
       ["怒りを感じた時は一度立ち止まり、状況を客観視する",
        "ニュースや情報は複数の源から確認する習慣をつける",
        "人を判断する前に、その人の立場や事情を考える",
        "自分の偏見や先入観に気づいたら、素直に見直す"],
     reflection := "正見は一朝一夕に身につくものではありません。日々の小さな気づきの積み重ねによって、徐々に曇りのない心の目が育まれていきます。",
     story := "ある弟子が師匠に「真実とは何ですか」と尋ねました。師匠は透明な水の入ったコップを見せて言いました。「これが真実だ。色も味もつけていない、ありのままの状態。私たちの心もこのように透明でなければならない」と。",
     daily_practice := "今日は何かを判断する前に、「これは事実か、それとも私の解釈か」を一度確認してみましょう。先入観を手放して、新鮮な目で物事を見る練習をしてください。" }),
  ("kutai",
   { name := "苦諦",
     pronunciation := "くたい",
     meaning := "苦諦とは、仏教の四諦の第一で、人生には苦しみが存在するという真理を認識することです。これは人生を悲観的に見ることではなく、苦しみの存在を受け入れることで、それに適切に対処できるという智慧です。苦しみの多くは、現実と理想のギャップ、執着、無知から生まれます。苦諦を理解することは、苦しみから解放される第一歩となります。",
     quote := "苦しみを受け入れることが、解放への第一歩",
     application := "人生で困難や悲しみに遭遇した時、「なぜ私だけが」と嘆くのではなく、「これも人生の一部」として受け入れることから始めましょう。苦しみを否定したり逃避したりするのではなく、その存在を認めることで、冷静に対処法を考えることができます。また、他人の苦しみにも理解を示し、共感することで、より深い人間関係を築くことができます。",
     practices :=
       ["困難に直面した時は「これも人生の学び」と受け入れる",
        "完璧を求めず、不完全さも人生の一部と理解する",
        "他人の苦しみに対して批判せず、共感を示す",
        "苦しい時こそ、自分を大切にする時間を作る"],
     reflection := "苦しみは人生から完全に取り除くことはできませんが、それとの付き合い方を変えることはできます。苦諦の理解は、より成熟した人生観を育てます。",
     story := "お釈迦様が初めて老人、病人、死者を見た時、人生の苦しみの現実に目覚めました。この体験が、苦しみからの解放を求める修行の出発点となったのです。",
     daily_practice := "今日感じる小さな不満や苦しみに対して、「これも人生の一部」という視点を持ってみましょう。抵抗するのではなく、受け入れることで心が楽になることを体験してください。" }),
  ("engi",
   { name := "縁起",
     pronunciation := "えんぎ",
     meaning := "縁起とは、すべての存在や現象は他との関係性の中で成り立っており、独立して存在するものは何もないという仏教の根本的な教えです。私たち一人一人も、無数の縁（関係性）によって今の自分が形作られています。家族、友人、自然、社会、さらには見知らぬ人々まで、すべてが複雑に絡み合って現在の状況を作り出しています。この理解は、感謝の心と責任感を育みます。",
     quote := "すべては繋がっている、あなたの笑顔も誰かの幸せの一部",
     application := "日常生活の中で、自分を支えてくれている見えない縁に気づくことを心がけましょう。食事一つとっても、農家の方、運送業の方、店員さんなど多くの人の働きがあって成り立っています。また、自分の行動も他者に影響を与えていることを意識し、良い縁を作り出すような言動を心がけることで、より豊かな人間関係を築くことができます。",
     practices :=
       ["食事の前に、食材に関わった人々に感謝する",
        "自分の行動が他人に与える影響を考えてから行動する",
        "困っている人を見かけたら、良い縁を作るつもりで手助けする",
        "家族や友人との関係を大切にし、感謝を表現する"],
     reflection := "縁起の理解は、個人主義を超えた大きな視点を与えてくれます。私たちは孤立した存在ではなく、大きな生命の網の中の一部なのです。",
     story := "インドラの網という比喩があります。宇宙は巨大な網のようで、交差点ごとに宝石があり、それぞれが他のすべての宝石を映し出している。一つの宝石の輝きが全体に影響を与えるように、私たちの行動も全体に響いていくのです。",
     daily_practice := "今日は自分を支えてくれている見えない縁に意識を向けてみましょう。そして、自分も誰かにとって良い縁になれるよう、温かい心で人と接してください。" }),
  ("ku",
   { name := "空",
     pronunciation := "くう",
     meaning := "空とは、すべての存在に固定的な実体がないという仏教の深遠な教えです。「色即是空、空即是色」という般若心経の有名な言葉が示すように、私たちが「これ」だと思っているものも、実は常に変化し、他との関係性の中でのみ存在しています。空の理解は、執着を手放し、柔軟で自由な心を育てることにつながります。これは虚無主義ではなく、真の自由への扉です。",
     quote := "固定観念を手放せば、無限の可能性が広がる",
     application := "日常生活では、「こうでなければならない」という固定的な考えを柔軟にすることから始めましょう。仕事のやり方、人間関係、自分の性格について、「これが絶対」と思わず、状況に応じて変化することを恐れない。失敗も成功も、永続的なものではないと理解することで、一喜一憂することなく、平常心を保つことができます。",
     practices :=
       ["「絶対にこうだ」という思い込みを疑ってみる",
        "変化を恐れず、新しい可能性に心を開く",
        "失敗しても「これも変化するもの」と受け入れる",
        "他人の意見や価値観の違いを柔軟に受け入れる"],
     reflection := "空の教えは、最も深い仏教の智慧の一つです。理解するのに時間がかかりますが、少しずつでも実践することで、心の自由度が格段に高まります。",
     story := "龍樹菩薩は空の思想を体系化した偉大な哲学者です。彼は「すべては空であるが故に、すべてが可能である」と説きました。固定的でないからこそ、変化と成長が可能なのです。",
     daily_practice := "今日は一つの固定観念を手放してみましょう。「いつもこうしている」ことを少し変えてみたり、新しい角度から物事を見てみたりして、心の柔軟性を育ててください。" }),
  ("shojin",
   { name := "精進",
     pronunciation := "しょうじん",
     meaning := "精進とは、正しい目標に向かって継続的に努力することを意味します。単なる頑張りではなく、智慧に基づいた適切な方向性を持った努力です。仏教では六波羅蜜の一つとして重視され、怠惰に流されることなく、また無理をしすぎることもなく、中道の精神で持続可能な努力を続けることが大切とされています。小さな歩みでも続けることで、大きな成果につながります。",
     quote := "千里の道も一歩から、継続は力なり",
     application := "大きな目標を達成するために、まず小さな習慣から始めましょう。一日10分の読書、毎朝の散歩、感謝の気持ちを書き留めるなど、無理のない範囲で続けられることを選ぶことが重要です。また、完璧を求めず、途中で休んでも自分を責めずに、再び始めることができる柔軟性も精進の一部です。継続することで、自信と inner strength が育まれます。",
     practices :=
       ["毎日続けられる小さな良い習慣を一つ決める",
        "三日坊主になっても自分を責めず、また始める",
        "大きな目標を小さなステップに分解する",
        "努力の過程を楽しみ、結果だけにこだわらない"],
     reflection := "精進は marathon であり、sprint ではありません。急がず、止まらず、自分のペースで歩み続けることが、最終的に大きな成果と内面の成長をもたらします。",
     story := "ある修行僧が「どうすれば悟りを得られますか」と師匠に尋ねました。師匠は庭で石に水を垂らし続ける装置を見せて言いました。「この小さな水滴が、やがて硬い石に穴を開ける。精進とはこういうことだ」と。",
     daily_practice := "今日から続けたい小さな良い習慣を一つ決めて、実際に始めてみましょう。完璧を求めず、「今日一日だけ」という気持ちで取り組むことから始めてください。" })]

/-- Python's `DETAILED_TEACHINGS.get(key)`: the value at `key`, or `None`
when the key is absent. -/
def dictGet (k : String) : Option Teaching :=
  (DETAILED_TEACHINGS.find? (fun kv => kv.1 == k)).map (fun kv => kv.2)

/-- Response of the `/blog/<key>` route: either a 404 via `abort(404)`
(carrying no entry content) or the rendered page of one entry. -/
inductive BlogResponse where
  | notFound
  | page (t : Teaching)
  deriving DecidableEq, Repr

/-- `blog_article` (src/app.py lines 700-707): look the key up in
`DETAILED_TEACHINGS`; `abort(404)` when absent, else render the entry. -/
def blog_article (k : String) : BlogResponse :=
  match dictGet k with
  | none => .notFound
  | some t => .page t

/-- The spec's row-matching rule, as one boolean predicate: the row has at
least two cells, its date cell contains the full date, the month-day, the
weekday token or the recurring marker, and its message cell is non-blank
after trimming.  Used to state that the scan returns the first such row. -/
def rowMatchesToday (tStr mDay wDay : String) (row : List String) : Bool :=
  decide (2 ≤ row.length) &&
  (pyIn tStr ((row.get? 0).getD "") || pyIn mDay ((row.get? 0).getD "") ||
    pyIn wDay ((row.get? 0).getD "") || pyIn "毎週" ((row.get? 0).getD "")) &&
  (pyStrip ((row.get? 1).getD "") != "")

theorem teachings_with_url_length : teachings_with_url.length = 15 := rfl

theorem dayOfYear_dec31 (y : Nat) (h : isLeap y = false) :
    dayOfYear ⟨y, 12, 31⟩ = 365 := by
  show (((List.range 11).map (fun i => daysInMonth y (i + 1))).sum) + 31 = 365
  rw [show (List.range 11).map (fun i => daysInMonth y (i + 1)) =
      [31, if isLeap y then 29 else 28, 31, 30, 31, 30, 31, 31, 30, 31, 30] from rfl, h]
  decide

theorem scanRows_eq_find (tStr mDay wDay : String) :
    ∀ rows : List (List String),
      scanRows tStr mDay wDay rows =
        (rows.find? (rowMatchesToday tStr mDay wDay)).map (fun r => (r.get? 1).getD "")
  | [] => rfl
  | row :: rest => by
    have ih := scanRows_eq_find tStr mDay wDay rest
    by_cases h1 : 2 ≤ row.length
    · cases hm : (pyIn tStr ((row.get? 0).getD "") || pyIn mDay ((row.get? 0).getD "") ||
          pyIn wDay ((row.get? 0).getD "") || pyIn "毎週" ((row.get? 0).getD "")) with
      | true =>
        cases hmsg : (pyStrip ((row.get? 1).getD "") != "") with
        | true =>
          have hp : rowMatchesToday tStr mDay wDay row = true := by
            simp only [rowMatchesToday, hm, hmsg, Bool.and_true, Bool.true_and,
              decide_eq_true_eq]
            exact h1
          rw [List.find?_cons_of_pos rest hp]
          simp only [scanRows]
          rw [if_pos h1, if_pos hm, if_pos hmsg]
          rfl
        | false =>
          have hp : rowMatchesToday tStr mDay wDay row = false := by
            simp only [rowMatchesToday, hmsg, Bool.and_false]
          rw [List.find?_cons_of_neg rest (by simp [hp])]
          simp only [scanRows]
          rw [if_pos h1, if_pos hm, if_neg (by rw [hmsg]; exact Bool.false_ne_true)]
          exact ih
      | false =>
        have hp : rowMatchesToday tStr mDay wDay row = false := by
          simp only [rowMatchesToday, hm, Bool.false_and, Bool.and_false, Bool.and_self]
        rw [List.find?_cons_of_neg rest (by simp [hp])]
        simp only [scanRows]
        rw [if_pos h1, if_neg (by rw [hm]; exact Bool.false_ne_true)]
        exact ih
    · have hp : rowMatchesToday tStr mDay wDay row = false := by
        have hd : decide (2 ≤ row.length) = false := by simp [h1]
        simp [rowMatchesToday, hd]
      rw [List.find?_cons_of_neg rest (by simp [hp])]
      simp only [scanRows]
      rw [if_neg h1]
      exact ih

/-- C1: a broadcast request whose body carries a non-empty `message` string
selects exactly that string, independently of the Row Source fetch outcome
and the date (no other tier is consulted), and the success response's
`content` field equals that same string. -/
theorem c1_override_verbatim (m : String) (hm : m ≠ "")
    (apiKey spreadsheetId : Option String) (fetch : SheetsFetch) (d : JDate) :
    selectMessage (some m) apiKey spreadsheetId fetch d = m ∧
    broadcast (some m) apiKey spreadsheetId fetch d (fun _ => Except.ok ()) =
      (⟨"success", "Buddhist wisdom broadcast sent", some m⟩, 200) := by
  have hsel : selectMessage (some m) apiKey spreadsheetId fetch d = m := by
    simp [selectMessage, pyTruthy, hm]
  exact ⟨hsel, by simp [broadcast, hsel]⟩

theorem c1_witness :
    selectMessage (some "hello") none none SheetsFetch.throws ⟨2025, 1, 1⟩ = "hello" ∧
    broadcast (some "hello") none none SheetsFetch.throws ⟨2025, 1, 1⟩
        (fun _ => Except.ok ()) =
      (⟨"success", "Buddhist wisdom broadcast sent", some "hello"⟩, 200) :=
  c1_override_verbatim "hello" (by decide) none none SheetsFetch.throws ⟨2025, 1, 1⟩

/-- C2: with no override and the sheet lookup yielding nothing, the selected
text is the rotation entry at index `(dayOfYear - 1) % 15`, trimmed; Jan 1
gives index 0; Dec 31 of a 365-day year gives index 4; and the index
depends only on the ordinal day of the year. -/
theorem c2_rotation_index :
    (∀ (apiKey spreadsheetId : Option String) (fetch : SheetsFetch) (d : JDate),
        get_message_from_sheets apiKey spreadsheetId fetch d = none →
        selectMessage none apiKey spreadsheetId fetch d =
          pyStrip (teachings_with_url.getD ((dayOfYear d - 1) % 15) "")) ∧
    (∀ y : Nat, dayOfYear ⟨y, 1, 1⟩ = 1 ∧ (dayOfYear ⟨y, 1, 1⟩ - 1) % 15 = 0) ∧
    (∀ y : Nat, isLeap y = false →
        dayOfYear ⟨y, 12, 31⟩ = 365 ∧ (dayOfYear ⟨y, 12, 31⟩ - 1) % 15 = 4) ∧
    (∀ d1 d2 : JDate, dayOfYear d1 = dayOfYear d2 →
        (dayOfYear d1 - 1) % 15 = (dayOfYear d2 - 1) % 15) := by
  refine ⟨?_, fun y => ⟨rfl, rfl⟩, ?_, fun d1 d2 h => by rw [h]⟩
  · intro apiKey spreadsheetId fetch d h
    simp [selectMessage, pyTruthy, h, teachings_with_url_length]
  · intro y h
    have h365 := dayOfYear_dec31 y h
    exact ⟨h365, by rw [h365]⟩

theorem c2_witness :
    selectMessage none none none SheetsFetch.throws ⟨2025, 12, 31⟩ =
      pyStrip (teachings_with_url.getD ((dayOfYear ⟨2025, 12, 31⟩ - 1) % 15) "") ∧
    dayOfYear ⟨2025, 12, 31⟩ = 365 ∧ (dayOfYear ⟨2025, 12, 31⟩ - 1) % 15 = 4 :=
  ⟨c2_rotation_index.1 none none SheetsFetch.throws ⟨2025, 12, 31⟩ rfl,
   c2_rotation_index.2.2.1 2025 rfl⟩

/-- C3: on a successful fetch with data, the rows after the header row are
scanned in source order and the result is the message cell of the first row
satisfying the match rule (full date, month-day, weekday token, or the
recurring marker, with a non-blank message cell); a sole `毎週` row with a
non-blank message matches on every day. -/
theorem c3_first_matching_row :
    (∀ (k s : String), k ≠ "" → s ≠ "" →
      ∀ (values : List (List String)), values ≠ [] → ∀ d : JDate,
        get_message_from_sheets (some k) (some s) (.response 200 values) d =
          ((values.drop 1).find?
              (rowMatchesToday (today_str d) (month_day d) (weekdayAbbrev d))).map
            (fun r => (r.get? 1).getD "")) ∧
    (∀ (header : List String) (d : JDate),
        get_message_from_sheets (some "KEY") (some "SID")
            (.response 200 [header, ["毎週", "weekly note"]]) d = some "weekly note") := by
  constructor
  · intro k s hk hs values hv d
    cases values with
    | nil => exact absurd rfl hv
    | cons v vs =>
      have hgm : get_message_from_sheets (some k) (some s) (.response 200 (v :: vs)) d =
          scanRows (today_str d) (month_day d) (weekdayAbbrev d) vs := by
        simp [get_message_from_sheets, pyTruthy, hk, hs]
      rw [hgm]
      exact scanRows_eq_find _ _ _ vs
  · intro header d
    have h1 : pyIn "毎週" "毎週" = true := rfl
    have h2 : (pyStrip "weekly note" != "") = true := rfl
    simp [get_message_from_sheets, pyTruthy, scanRows, h1, h2]

theorem c3_witness :
    get_message_from_sheets (some "K") (some "S")
        (.response 200 [["date", "msg"], ["毎週", "weekly note"]]) ⟨2025, 7, 1⟩ =
      (([["毎週", "weekly note"]]).find?
          (rowMatchesToday (today_str ⟨2025, 7, 1⟩) (month_day ⟨2025, 7, 1⟩)
            (weekdayAbbrev ⟨2025, 7, 1⟩))).map (fun r => (r.get? 1).getD "") ∧
    get_message_from_sheets (some "KEY") (some "SID")
        (.response 200 [["date", "msg"], ["毎週", "weekly note"]]) ⟨2025, 7, 1⟩ =
      some "weekly note" :=
  ⟨c3_first_matching_row.1 "K" "S" (by decide) (by decide)
      [["date", "msg"], ["毎週", "weekly note"]] (by decide) ⟨2025, 7, 1⟩,
   c3_first_matching_row.2 ["date", "msg"] ⟨2025, 7, 1⟩⟩

/-- C4: a row whose date cell matches today but whose message cell is blank
after trimming is skipped and scanning continues with the remaining rows,
so a later matching row is still returned. -/
theorem c4_blank_message_skipped (tStr mDay wDay : String) (row : List String)
    (rest : List (List String)) (h1 : 2 ≤ row.length)
    (hm : (pyIn tStr ((row.get? 0).getD "") || pyIn mDay ((row.get? 0).getD "") ||
        pyIn wDay ((row.get? 0).getD "") || pyIn "毎週" ((row.get? 0).getD "")) = true)
    (hblank : pyStrip ((row.get? 1).getD "") = "") :
    scanRows tStr mDay wDay (row :: rest) = scanRows tStr mDay wDay rest := by
  simp only [scanRows]
  rw [if_pos h1, if_pos hm, if_neg (by simp only [hblank, bne_self_eq_false]; exact Bool.false_ne_true)]

theorem c4_witness :
    scanRows "2026年10月12日" "10月12日" "Mon" [["毎週", " "], ["毎週", "later"]] =
      scanRows "2026年10月12日" "10月12日" "Mon" [["毎週", "later"]] ∧
    scanRows "2026年10月12日" "10月12日" "Mon" [["毎週", " "], ["毎週", "later"]] =
      some "later" := by
  have h := c4_blank_message_skipped "2026年10月12日" "10月12日" "Mon" ["毎週", " "]
    [["毎週", "later"]] (by decide) (by decide) (by decide)
  exact ⟨h, h.trans (by decide)⟩

/-- C5: every Row Source failure mode — falsy api key or spreadsheet id, an
exception during fetch or parse, a non-200 status, empty data — makes the
sheet lookup return nothing rather than raising, and the broadcast then
serves the rotation tier with a success response, surfacing no sheet
error. -/
theorem c5_sheet_failures_fall_through :
    (∀ (apiKey spreadsheetId : Option String) (fetch : SheetsFetch) (d : JDate),
        pyTruthy apiKey = false ∨ pyTruthy spreadsheetId = false →
        get_message_from_sheets apiKey spreadsheetId fetch d = none) ∧
    (∀ (apiKey spreadsheetId : Option String) (d : JDate),
        get_message_from_sheets apiKey spreadsheetId SheetsFetch.throws d = none) ∧
    (∀ (apiKey spreadsheetId : Option String) (status : Nat)
        (values : List (List String)) (d : JDate), status ≠ 200 →
        get_message_from_sheets apiKey spreadsheetId (.response status values) d = none) ∧
    (∀ (apiKey spreadsheetId : Option String) (status : Nat) (d : JDate),
        get_message_from_sheets apiKey spreadsheetId (.response status []) d = none) ∧
    (∀ (apiKey spreadsheetId : Option String) (fetch : SheetsFetch) (d : JDate),
        get_message_from_sheets apiKey spreadsheetId fetch d = none →
        broadcast none apiKey spreadsheetId fetch d (fun _ => Except.ok ()) =
          (⟨"success", "Buddhist wisdom broadcast sent",
              some (pyStrip (teachings_with_url.getD ((dayOfYear d - 1) % 15) ""))⟩,
            200)) := by
  refine ⟨?_, ?_, ?_, ?_, ?_⟩
  · intro apiKey spreadsheetId fetch d h
    rcases h with h | h <;> simp [get_message_from_sheets, h]
  · intro apiKey spreadsheetId d
    by_cases hC : (!pyTruthy apiKey || !pyTruthy spreadsheetId) = true <;>
      simp [get_message_from_sheets, hC]
  · intro apiKey spreadsheetId status values d h
    by_cases hC : (!pyTruthy apiKey || !pyTruthy spreadsheetId) = true <;>
      simp [get_message_from_sheets, hC, h]
  · intro apiKey spreadsheetId status d
    by_cases hC : (!pyTruthy apiKey || !pyTruthy spreadsheetId) = true <;>
      by_cases hS : (status != 200) = true <;>
      simp [get_message_from_sheets, hC, hS]
  · intro apiKey spreadsheetId fetch d h
    simp [broadcast, selectMessage, pyTruthy, h, teachings_with_url_length]

theorem c5_witness :
    get_message_from_sheets (some "") (some "SID") SheetsFetch.throws ⟨2025, 6, 1⟩ = none ∧
    get_message_from_sheets (some "K") (some "S")
        (.response 500 [["a", "b"]]) ⟨2025, 6, 1⟩ = none ∧
    broadcast none (some "K") (some "S") (.response 500 [["a", "b"]]) ⟨2025, 6, 1⟩
        (fun _ => Except.ok ()) =
      (⟨"success", "Buddhist wisdom broadcast sent",
          some (pyStrip (teachings_with_url.getD ((dayOfYear ⟨2025, 6, 1⟩ - 1) % 15) ""))⟩,
        200) :=
  ⟨c5_sheet_failures_fall_through.1 (some "") (some "SID") SheetsFetch.throws ⟨2025, 6, 1⟩
      (Or.inl (by decide)),
   c5_sheet_failures_fall_through.2.2.1 (some "K") (some "S") 500 [["a", "b"]] ⟨2025, 6, 1⟩
      (by decide),
   c5_sheet_failures_fall_through.2.2.2.2 (some "K") (some "S")
      (.response 500 [["a", "b"]]) ⟨2025, 6, 1⟩ rfl⟩

/-- C6 counterexample: the rotation is NOT non-repeating within 15 days
across a year boundary: Dec 27, 2025 and Jan 1, 2026 are 5 days apart yet
both select rotation index 0, hence the same entry and the same message. -/
theorem c6_counterexample :
    absDay ⟨2026, 1, 1⟩ - absDay ⟨2025, 12, 27⟩ = 5 ∧ (5 : Nat) < 15 ∧
    (dayOfYear ⟨2025, 12, 27⟩ - 1) % 15 = 0 ∧ (dayOfYear ⟨2026, 1, 1⟩ - 1) % 15 = 0 ∧
    selectMessage none none none SheetsFetch.throws ⟨2025, 12, 27⟩ =
      selectMessage none none none SheetsFetch.throws ⟨2026, 1, 1⟩ :=
  ⟨by decide, by decide, by decide, by decide, rfl⟩

/-- C6 (amended): within a single year the rotation is deterministic and
non-repeating: two days of the same year whose 1-based ordinal days differ
by fewer than 15 select different rotation indices, and the first 15 days
of any year realise the full cycle of indices 0..14. -/
theorem c6_amended_rotation_no_repeat :
    (∀ d1 d2 : JDate, d1.year = d2.year → 1 ≤ dayOfYear d1 →
        dayOfYear d1 < dayOfYear d2 → dayOfYear d2 - dayOfYear d1 < 15 →
        (dayOfYear d1 - 1) % 15 ≠ (dayOfYear d2 - 1) % 15) ∧
    (∀ (y j : Nat), j < 15 → (dayOfYear ⟨y, 1, j + 1⟩ - 1) % 15 = j) := by
  constructor
  · intro d1 d2 _ h1 hlt hdiff heq
    have hab : dayOfYear d1 - 1 ≤ dayOfYear d2 - 1 := by omega
    have hdvd : 15 ∣ (dayOfYear d2 - 1) - (dayOfYear d1 - 1) :=
      (Nat.modEq_iff_dvd' hab).mp heq
    have hpos : 0 < (dayOfYear d2 - 1) - (dayOfYear d1 - 1) := by omega
    have hge := Nat.le_of_dvd hpos hdvd
    omega
  · intro y j hj
    have hd : dayOfYear ⟨y, 1, j + 1⟩ = j + 1 := by
      show (((List.range 0).map (fun i => daysInMonth y (i + 1))).sum) + (j + 1) = j + 1
      simp
    rw [hd]
    simp [Nat.mod_eq_of_lt hj]

theorem c6_amended_witness :
    (dayOfYear ⟨2025, 1, 3⟩ - 1) % 15 ≠ (dayOfYear ⟨2025, 1, 10⟩ - 1) % 15 :=
  c6_amended_rotation_no_repeat.1 ⟨2025, 1, 3⟩ ⟨2025, 1, 10⟩ rfl (by decide) (by decide)
    (by decide)

/-- C7: when delivery of the selected text succeeds the endpoint returns
200 with `status` "success" and `content` equal to the exact text handed to
the Broadcaster; when delivery raises, it returns 500 with `status` "error"
and `message` carrying the error description. -/
theorem c7_response_contract (body apiKey spreadsheetId : Option String)
    (fetch : SheetsFetch) (d : JDate) (deliver : String → Except String Unit) :
    (deliver (selectMessage body apiKey spreadsheetId fetch d) = Except.ok () →
      broadcast body apiKey spreadsheetId fetch d deliver =
        (⟨"success", "Buddhist wisdom broadcast sent",
            some (selectMessage body apiKey spreadsheetId fetch d)⟩, 200)) ∧
    (∀ e : String,
      deliver (selectMessage body apiKey spreadsheetId fetch d) = Except.error e →
      broadcast body apiKey spreadsheetId fetch d deliver = (⟨"error", e, none⟩, 500)) := by
  constructor
  · intro h
    simp [broadcast, h]
  · intro e h
    simp [broadcast, h]

theorem c7_witness :
    broadcast (some "hi") none none SheetsFetch.throws ⟨2025, 1, 1⟩
        (fun _ => Except.ok ()) =
      (⟨"success", "Buddhist wisdom broadcast sent",
          some (selectMessage (some "hi") none none SheetsFetch.throws ⟨2025, 1, 1⟩)⟩,
        200) ∧
    broadcast (some "hi") none none SheetsFetch.throws ⟨2025, 1, 1⟩
        (fun _ => Except.error "boom") = (⟨"error", "boom", none⟩, 500) :=
  ⟨(c7_response_contract (some "hi") none none SheetsFetch.throws ⟨2025, 1, 1⟩
      (fun _ => Except.ok ())).1 rfl,
   (c7_response_contract (some "hi") none none SheetsFetch.throws ⟨2025, 1, 1⟩
      (fun _ => Except.error "boom")).2 "boom" rfl⟩

/-- C8: `/blog/chudo` renders the entry whose `name` is 中道, and every key
absent from the static table — `doesnotexist` in particular — yields a 404
response that carries no entry content. -/
theorem c8_blog_lookup :
    (∃ t, blog_article "chudo" = BlogResponse.page t ∧ t.name = "中道") ∧
    blog_article "doesnotexist" = BlogResponse.notFound ∧
    (∀ k : String, dictGet k = none → blog_article k = BlogResponse.notFound) := by
  refine ⟨⟨_, rfl, rfl⟩, rfl, ?_⟩
  intro k h
  simp [blog_article, h]

theorem c8_witness : blog_article "engi2" = BlogResponse.notFound :=
  c8_blog_lookup.2.2 "engi2" rfl

/-- C9: a fetched row with fewer than two cells is skipped without being
evaluated as a match, whatever its single cell contains, so the scan never
indexes a cell that is not there. -/
theorem c9_short_row_skipped (tStr mDay wDay : String) (row : List String)
    (rest : List (List String)) (h : row.length < 2) :
    scanRows tStr mDay wDay (row :: rest) = scanRows tStr mDay wDay rest := by
  simp only [scanRows]
  rw [if_neg (by omega)]

theorem c9_witness :
    scanRows "2026年10月12日" "10月12日" "Mon" [["毎週"]] =
      scanRows "2026年10月12日" "10月12日" "Mon" [] ∧
    scanRows "2026年10月12日" "10月12日" "Mon" [["毎週"]] = none := by
  have h := c9_short_row_skipped "2026年10月12日" "10月12日" "Mon" ["毎週"] [] (by decide)
  exact ⟨h, h.trans rfl⟩

/-- C10: the static teaching table's keys are exactly the rotation's
`teaching_keys` in order, both have 15 entries, and the i-th rotation
message ends with a blog URL whose final segment is the i-th key, which the
blog lookup renders (it is present in the table, so not a 404). -/
theorem c10_rotation_blog_alignment :
    DETAILED_TEACHINGS.map Prod.fst = teaching_keys ∧
    teaching_keys.length = 15 ∧ teachings_with_url.length = 15 ∧
    (∀ i : Nat, i < 15 →
      endsWithChars (teachings_with_url.getD i "")
          ("/blog/" ++ teaching_keys.getD i "") = true ∧
      (dictGet (teaching_keys.getD i "")).isSome = true ∧
      blog_article (teaching_keys.getD i "") ≠ BlogResponse.notFound) := by
  refine ⟨rfl, rfl, rfl, ?_⟩
  intro i hi
  interval_cases i <;> exact ⟨rfl, rfl, by decide⟩

theorem c10_witness :
    endsWithChars (teachings_with_url.getD 13 "")
        ("/blog/" ++ teaching_keys.getD 13 "") = true ∧
    (dictGet (teaching_keys.getD 13 "")).isSome = true ∧
    blog_article (teaching_keys.getD 13 "") ≠ BlogResponse.notFound :=
  c10_rotation_blog_alignment.2.2.2 13 (by decide)

end BuddhistBot
